import Mathlib

/-!
Verification of `src/modules/set-refresh-rate.py` (ZephyrusOptimizations).

The tool fetches the compositor's display state over D-Bus, parses the
per-connector mode catalogs, selects a target mode matching the requested
refresh rate at the current resolution, rebuilds the logical-monitor
configuration and submits it back.  We embed the pure decision logic of the
script: `parse_modes`, the current/target selection loops inside
`set_refresh_rate`, the configuration rebuild, and the outcome (printed
messages, return value, number of apply calls, process exit code).

Python floats carrying refresh rates and scales are modelled as rationals
(`ℚ`); the comparisons the code performs on them (`abs (x - y) < 1.0`,
equality of integers) are exact at this granularity.  D-Bus replies are
dynamically typed on the Python side, so the raw monitor data handed to
`parse_modes` is modelled by an inductive `PyVal` of variant values; Python's
tuple unpacking (`a, b, c = v`), which raises on an arity mismatch, becomes a
pattern match returning `Except.error` on any shape mismatch (the D-Bus
variant signature guarantees field types whenever the arity is right).
Exceptions that the script does not catch are modelled by `Except.error`
propagating out of `set_refresh_rate`; Python terminates such a run with exit
status 1.
-/

namespace ZephyrusOptimizations

/-- A dynamically typed value as delivered by the D-Bus layer to the Python
code (booleans, integers, doubles, strings, tuples/arrays, `a{sv}` maps). -/
inductive PyVal : Type where
  | b : Bool → PyVal
  | i : Int → PyVal
  | q : ℚ → PyVal
  | s : String → PyVal
  | arr : List PyVal → PyVal
  | dict : List (String × PyVal) → PyVal

/-- Python truthiness of a value, as used by `if m['is_current']:` etc. -/
def PyVal.truthy : PyVal → Bool
  | .b v => v
  | .i v => v != 0
  | .q v => v != 0
  | .s v => !v.isEmpty
  | .arr v => !v.isEmpty
  | .dict v => !v.isEmpty

/-- `d.get(k, dflt)` on an `a{sv}` map (keys are unique in a D-Bus map, so
first-match lookup is the lookup). -/
def dictGet (d : List (String × PyVal)) (k : String) (dflt : PyVal) : PyVal :=
  match d.find? (fun kv => kv.1 == k) with
  | some kv => kv.2
  | none => dflt

/-- One entry of the flattened mode list built by `parse_modes`: the dict
`{'connector': …, 'mode_id': …, 'width': …, 'height': …, 'refresh': …,
'scale': …, 'scales': …, 'is_current': …, 'is_preferred': …, 'props': …}`. -/
structure MonitorMode where
  connector : String
  mode_id : String
  width : Int
  height : Int
  refresh : ℚ
  scale : ℚ
  scales : PyVal
  is_current : Bool
  is_preferred : Bool
  props : List (String × PyVal)

/-- Unpacking of one mode tuple
`mode_id, width, height, refresh, scale, scales, mode_props = mode` followed
by the two `mode_props.get` calls, from the inner loop of `parse_modes`.
A shape mismatch is the unpacking `ValueError`. -/
def parseMode (connector : String) (mode : PyVal) : Except String MonitorMode :=
  match mode with
  | .arr [.s mode_id, .i width, .i height, .q refresh, .q scale, scales, .dict mode_props] =>
      .ok { connector := connector, mode_id := mode_id, width := width, height := height,
            refresh := refresh, scale := scale, scales := scales,
            is_current := (dictGet mode_props "is-current" (.b false)).truthy,
            is_preferred := (dictGet mode_props "is-preferred" (.b false)).truthy,
            props := mode_props }
  | _ => .error "ValueError: cannot unpack mode tuple"

/-- The modes contributed by one monitor: unpacking
`connector_info, mode_list, props = monitor` and
`connector, vendor, product, serial_num = connector_info`, then the inner
loop over `mode_list`. -/
def parseMonitorModes (connector : String) : List PyVal → Except String (List MonitorMode)
  | [] => .ok []
  | v :: vs =>
    match parseMode connector v with
    | .error e => .error e
    | .ok m =>
      match parseMonitorModes connector vs with
      | .error e => .error e
      | .ok ms => .ok (m :: ms)

/-- Unpacking of one element of `monitors` in `parse_modes`. -/
def parseMonitor (monitor : PyVal) : Except String (List MonitorMode) :=
  match monitor with
  | .arr [.arr [.s connector, .s _vendor, .s _product, .s _serial], .arr mode_list, _props] =>
      parseMonitorModes connector mode_list
  | _ => .error "ValueError: cannot unpack monitor tuple"

/-- `parse_modes(monitors)`: the nested `for` loops appending one dict per
mode, flattening all connectors into one list.  An exception raised while
unpacking any entry aborts the whole call (nothing is returned). -/
def parse_modes : List PyVal → Except String (List MonitorMode)
  | [] => .ok []
  | mo :: mos =>
    match parseMonitor mo with
    | .error e => .error e
    | .ok ms =>
      match parse_modes mos with
      | .error e => .error e
      | .ok rest => .ok (ms ++ rest)

/-- `abs(a - b) < 1.0` on exact rationals, computed by cross-multiplication
on numerators and denominators (the library's rational subtraction is
`irreducible`, so the comparison is phrased directly in integer arithmetic to
stay kernel-computable; `absDiffLtOne_iff` below proves it is exactly
`|a - b| < 1`). -/
def absDiffLtOne (a b : ℚ) : Bool :=
  decide ((a.num * b.den - b.num * a.den).natAbs < a.den * b.den)

/-- The loop condition of the target-search loop in `set_refresh_rate`:
`m['width'] == current['width'] and m['height'] == current['height'] and
abs(m['refresh'] - target_refresh) < 1.0`. -/
def modeMatches (current : MonitorMode) (target_refresh : ℚ) (m : MonitorMode) : Bool :=
  m.width == current.width && m.height == current.height &&
    absDiffLtOne m.refresh target_refresh

/-- The current-mode search loop: first entry with `is_current`, `break`. -/
def selectCurrent (modes : List MonitorMode) : Option MonitorMode :=
  modes.find? (fun m => m.is_current)

/-- The target-mode search loop: first entry matching resolution and rate,
`break`. -/
def selectTarget (modes : List MonitorMode) (current : MonitorMode) (target_refresh : ℚ) :
    Option MonitorMode :=
  modes.find? (modeMatches current target_refresh)

/-- One element of a fetched logical monitor's monitor list: the `(ssss)`
tuple `connector, vendor, product, serial_num = mc`. -/
structure MonitorConfigIn where
  connector : String
  vendor : String
  product : String
  serial_num : String
deriving DecidableEq, Repr

/-- One fetched logical monitor, the `(iiduba(ssss)a{sv})` tuple unpacked by
`x, y, scale, transform, is_primary, monitor_configs, lm_props = lm`. -/
structure LogicalMonitor where
  x : Int
  y : Int
  scale : ℚ
  transform : Nat
  is_primary : Bool
  monitor_configs : List MonitorConfigIn
  lm_props : List (String × PyVal)

/-- One rebuilt per-connector entry `(connector, mode_str, {})`. -/
structure MonitorConfigOut where
  connector : String
  mode_id : String
  props : List (String × PyVal)

/-- One rebuilt logical monitor
`(x, y, scale, transform, is_primary, new_monitor_configs)` — six components;
the fetched `lm_props` has no counterpart here. -/
structure NewLogicalMonitor where
  x : Int
  y : Int
  scale : ℚ
  transform : Nat
  is_primary : Bool
  monitor_configs : List MonitorConfigOut

/-- The inner lookup loop
`for m in modes: if m['connector'] == connector and m['is_current']: …` -/
def lookupCurrentMode (modes : List MonitorMode) (connector : String) : Option MonitorMode :=
  modes.find? (fun m => m.connector == connector && m.is_current)

/-- Processing of one `mc` in the rebuild loops of `set_refresh_rate`.
`mode_str` is a function-scoped Python local: when the connector is not the
target's and no parsed mode for it is flagged current, the inner loop assigns
nothing and `mode_str` keeps the value from the previously processed
connector — `none` (never yet assigned) makes
`new_monitor_configs.append((connector, mode_str, {}))` raise `NameError`. -/
def newModeStr (target : MonitorMode) (modes : List MonitorMode)
    (mode_str : Option String) (mc : MonitorConfigIn) : Option String :=
  if mc.connector == target.connector then some target.mode_id
  else
    match lookupCurrentMode modes mc.connector with
    | some m => some m.mode_id
    | none => mode_str

/-- Appending `(connector, mode_str, {})` with the updated `mode_str`;
`none` (never assigned) raises `NameError` at the append. -/
def buildEntry (target : MonitorMode) (modes : List MonitorMode)
    (mode_str : Option String) (mc : MonitorConfigIn) :
    Except String (MonitorConfigOut × Option String) :=
  match newModeStr target modes mode_str mc with
  | some id => .ok (⟨mc.connector, id, []⟩, some id)
  | none => .error "NameError: name mode_str is not defined"

/-- The `for mc in monitor_configs:` loop, threading the `mode_str` local. -/
def buildConfigsAux (target : MonitorMode) (modes : List MonitorMode)
    (mode_str : Option String) :
    List MonitorConfigIn → Except String (List MonitorConfigOut × Option String)
  | [] => .ok ([], mode_str)
  | mc :: rest =>
    match buildEntry target modes mode_str mc with
    | .error e => .error e
    | .ok (entry, s) =>
      match buildConfigsAux target modes s rest with
      | .error e => .error e
      | .ok (entries, s') => .ok (entry :: entries, s')

/-- The `for lm in logical_monitors:` loop; `mode_str` persists across
logical monitors as well, being a function-scoped local. -/
def buildLogicalMonitorsAux (target : MonitorMode) (modes : List MonitorMode)
    (mode_str : Option String) :
    List LogicalMonitor → Except String (List NewLogicalMonitor × Option String)
  | [] => .ok ([], mode_str)
  | lm :: rest =>
    match buildConfigsAux target modes mode_str lm.monitor_configs with
    | .error e => .error e
    | .ok (cfgs, s) =>
      match buildLogicalMonitorsAux target modes s rest with
      | .error e => .error e
      | .ok (out, s') => .ok (⟨lm.x, lm.y, lm.scale, lm.transform, lm.is_primary, cfgs⟩ :: out, s')

/-- The configuration rebuild of `set_refresh_rate`: `new_logical_monitors`
as submitted to `apply_config`, starting with `mode_str` unbound. -/
def buildNewConfiguration (target : MonitorMode) (modes : List MonitorMode)
    (logical_monitors : List LogicalMonitor) : Except String (List NewLogicalMonitor) :=
  match buildLogicalMonitorsAux target modes none logical_monitors with
  | .error e => .error e
  | .ok (out, _) => .ok out

/-- The messages `set_refresh_rate` prints, kept symbolic. -/
inductive Msg where
  | errNoCurrent
  | errModeNotFound (width height : Int) (target_refresh : ℚ)
  | availableRate (refresh : ℚ)
  | alreadyAt (target_refresh : ℚ)
  | setDone (refresh : ℚ)
  | errApply (e : String)
deriving DecidableEq, Repr

/-- Observable outcome of one `set_refresh_rate` run: printed messages, the
boolean the function returns, and how many times `apply_config` was called. -/
structure SetTrace where
  output : List Msg
  ok : Bool
  applyCalls : Nat
deriving DecidableEq, Repr

/-- `set_refresh_rate(target_refresh)` after the fetch: `monitors` and
`logical_monitors` are the fetched state, `applyFault` is the service's
response to the one possible `ApplyMonitorsConfig` call (`none` = success,
`some e` = D-Bus fault caught by the `try/except`).  `Except.error` models an
exception the function does not catch (it propagates out of `main`). -/
def set_refresh_rate (applyFault : Option String) (monitors : List PyVal)
    (logical_monitors : List LogicalMonitor) (target_refresh : ℚ) :
    Except String SetTrace :=
  match parse_modes monitors with
  | .error e => .error e
  | .ok modes =>
    match selectCurrent modes with
    | none => .ok ⟨[.errNoCurrent], false, 0⟩
    | some current =>
      match selectTarget modes current target_refresh with
      | none =>
        .ok ⟨.errModeNotFound current.width current.height target_refresh ::
          (modes.filter (fun m => m.width == current.width && m.height == current.height)).map
            (fun m => Msg.availableRate m.refresh), false, 0⟩
      | some target =>
        if target.is_current then .ok ⟨[.alreadyAt target_refresh], true, 0⟩
        else
          match buildNewConfiguration target modes logical_monitors with
          | .error e => .error e
          | .ok _cfg =>
            match applyFault with
            | none => .ok ⟨[.setDone target.refresh], true, 1⟩
            | some e => .ok ⟨[.errApply e], false, 1⟩

/-- Process exit status of `main` when invoked with a numeric argument:
`0` when `set_refresh_rate` returns `True`, `1` when it returns `False`, and
`1` when an uncaught exception terminates the interpreter. -/
def runSet (applyFault : Option String) (monitors : List PyVal)
    (logical_monitors : List LogicalMonitor) (target_refresh : ℚ) : Nat :=
  match set_refresh_rate applyFault monitors logical_monitors target_refresh with
  | .ok t => if t.ok then 0 else 1
  | .error _ => 1

/-- The six components of a fetched logical monitor that the rebuild reads
(everything except `lm_props`). -/
def stripLmProps (lm : LogicalMonitor) : Int × Int × ℚ × Nat × Bool × List MonitorConfigIn :=
  (lm.x, lm.y, lm.scale, lm.transform, lm.is_primary, lm.monitor_configs)

/-- Shape check mirroring the pattern `parseMode` accepts. -/
def modeWF : PyVal → Bool
  | .arr [.s _, .i _, .i _, .q _, .q _, _, .dict _] => true
  | _ => false

/-- Shape check mirroring the pattern `parseMonitor` accepts, every mode
entry included. -/
def monitorWF : PyVal → Bool
  | .arr [.arr [.s _, .s _, .s _, .s _], .arr mode_list, _] => mode_list.all modeWF
  | _ => false

/-- Concrete 1920×1080 @ 60 Hz mode on connector DP-1, flagged current. -/
def m60ex : MonitorMode :=
  { connector := "DP-1", mode_id := "m60", width := 1920, height := 1080,
    refresh := 60, scale := 1, scales := .arr [.q 1], is_current := true,
    is_preferred := false, props := [("is-current", .b true)] }

/-- Concrete 1920×1080 @ 61 Hz mode on connector DP-1, not current. -/
def m61ex : MonitorMode :=
  { connector := "DP-1", mode_id := "m61", width := 1920, height := 1080,
    refresh := 61, scale := 1, scales := .arr [.q 1], is_current := false,
    is_preferred := false, props := [] }

/-- 59.9 as an exact rational, given in lowest terms so that it evaluates
without the library's `irreducible` rational division. -/
def q599d10 : ℚ := ⟨599, 10, by decide, by decide⟩

/-- Concrete 1920×1080 @ 59.9 Hz mode on connector DP-1, not current. -/
def m599ex : MonitorMode :=
  { connector := "DP-1", mode_id := "m599", width := 1920, height := 1080,
    refresh := q599d10, scale := 1, scales := .arr [.q 1], is_current := false,
    is_preferred := false, props := [] }

/-- Concrete 1920×1080 @ 240 Hz mode on connector DP-1, not current. -/
def m240ex : MonitorMode :=
  { connector := "DP-1", mode_id := "m240", width := 1920, height := 1080,
    refresh := 240, scale := 1, scales := .arr [.q 1], is_current := false,
    is_preferred := false, props := [] }

/-- Raw mode tuple as it appears in a `GetCurrentState` reply. -/
def rawMode (mode_id : String) (refresh : ℚ) (cur : Bool) : PyVal :=
  .arr [.s mode_id, .i 1920, .i 1080, .q refresh, .q 1, .arr [.q 1],
    .dict (if cur then [("is-current", .b true)] else [])]

/-- Raw monitor entry for connector DP-1 with a given mode list. -/
def rawMonitorDP1 (mode_list : List PyVal) : PyVal :=
  .arr [.arr [.s "DP-1", .s "VEN", .s "PROD", .s "SER"], .arr mode_list, .dict []]

/-- Fetched single-connector state: DP-1 at 60 Hz (current), 240 Hz offered. -/
def rawMonitors1 : List PyVal :=
  [rawMonitorDP1 [rawMode "m60" 60 true, rawMode "m240" 240 false]]

/-- Duplicate of `m240ex` with a different mode id, listed after it. -/
def m240bex : MonitorMode :=
  { connector := "DP-1", mode_id := "m240b", width := 1920, height := 1080,
    refresh := 240, scale := 1, scales := .arr [.q 1], is_current := false,
    is_preferred := false, props := [] }

/-- Fetched logical monitor referencing DP-1 only. -/
def lmEx : LogicalMonitor :=
  { x := 0, y := 0, scale := 1, transform := 0, is_primary := true,
    monitor_configs := [⟨"DP-1", "VEN", "PROD", "SER"⟩], lm_props := [] }

/-- Concrete 2560×1440 @ 60 Hz mode on connector HDMI-1, flagged current. -/
def mHdmiEx : MonitorMode :=
  { connector := "HDMI-1", mode_id := "h60", width := 2560, height := 1440,
    refresh := 60, scale := 1, scales := .arr [.q 1], is_current := true,
    is_preferred := false, props := [("is-current", .b true)] }

/-- Fetched logical monitor referencing HDMI-1 only. -/
def lm2Ex : LogicalMonitor :=
  { x := 1920, y := 0, scale := 1, transform := 0, is_primary := false,
    monitor_configs := [⟨"HDMI-1", "VEN2", "PROD2", "SER2"⟩], lm_props := [] }

/-- `lmEx` with a nonempty per-logical-monitor properties map. -/
def lmPropsEx : LogicalMonitor :=
  { x := 0, y := 0, scale := 1, transform := 0, is_primary := true,
    monitor_configs := [⟨"DP-1", "VEN", "PROD", "SER"⟩],
    lm_props := [("color-profile", .s "p3")] }

/-- Logical monitor referencing HDMI-1 in a state whose parsed mode list has
no current HDMI-1 mode. -/
def lmHdmiEx : LogicalMonitor :=
  { x := 0, y := 0, scale := 1, transform := 0, is_primary := true,
    monitor_configs := [⟨"HDMI-1", "VEN2", "PROD2", "SER2"⟩], lm_props := [] }

/-- The configuration rebuilt from `lmEx` when retargeting DP-1 to `m240ex`. -/
def cfgEx : List NewLogicalMonitor :=
  [⟨0, 0, 1, 0, true, [⟨"DP-1", "m240", []⟩]⟩]

/-- Fetched single-connector state: DP-1 offering 59.9 Hz (listed first) and
60 Hz (current) at the same resolution. -/
def rawMonitors2 : List PyVal :=
  [rawMonitorDP1 [rawMode "m599" q599d10 false, rawMode "m60" 60 true]]

/-! ## Helper lemmas -/

theorem rat_sub_eq_div (a b : ℚ) :
    a - b = ((a.num * b.den - b.num * a.den : ℤ) : ℚ) / ((a.den * b.den : ℕ) : ℚ) := by
  have ha : ((a.den : ℚ)) ≠ 0 := Nat.cast_ne_zero.mpr a.den_nz
  have hb : ((b.den : ℚ)) ≠ 0 := Nat.cast_ne_zero.mpr b.den_nz
  conv_lhs => rw [← Rat.num_div_den a, ← Rat.num_div_den b]
  push_cast
  field_simp
  ring

theorem absDiffLtOne_iff (a b : ℚ) : absDiffLtOne a b = true ↔ |a - b| < 1 := by
  have hd : (0:ℚ) < ((a.den * b.den : ℕ) : ℚ) := by
    have := a.den_pos
    have := b.den_pos
    positivity
  rw [absDiffLtOne, decide_eq_true_iff, rat_sub_eq_div a b, abs_div,
    abs_of_pos hd, div_lt_one hd, ← Int.cast_abs, Int.abs_eq_natAbs]
  exact_mod_cast Iff.rfl

theorem modeMatches_iff (current m : MonitorMode) (r : ℚ) :
    modeMatches current r m = true ↔
      m.width = current.width ∧ m.height = current.height ∧ |m.refresh - r| < 1 := by
  rw [modeMatches]
  simp [Bool.and_eq_true, beq_iff_eq, absDiffLtOne_iff, and_assoc]

theorem find?_append_first {α} (p : α → Bool) (l₁ l₂ : List α) (a : α)
    (ha : p a = true) (hl : ∀ x ∈ l₁, p x = false) :
    (l₁ ++ a :: l₂).find? p = some a := by
  induction l₁ with
  | nil => simp [List.find?, ha]
  | cons b bs ih =>
    have hb : p b = false := hl b (by simp)
    simpa [List.find?, hb] using ih (fun x hx => hl x (by simp [hx]))

/-! ## Claims about target selection (C2, C3, C8) -/

/-- C3: a mode `m` is eligible as the target, for current mode `current` and
requested rate `r`, if and only if `abs (m.refresh - r) < 1` and `m.width`,
`m.height` equal `current`'s; in particular a mode whose refresh differs from
`r` by exactly 1.0 Hz is not eligible and is never selected. -/
theorem selectTarget_eligibility (current m : MonitorMode) (r : ℚ) :
    (selectTarget [m] current r = some m ↔
      |m.refresh - r| < 1 ∧ m.width = current.width ∧ m.height = current.height) ∧
    (|m.refresh - r| = 1 → selectTarget [m] current r = none) := by
  have hsel : selectTarget [m] current r =
      if modeMatches current r m = true then some m else none := by
    cases h : modeMatches current r m <;> simp [selectTarget, List.find?, h]
  constructor
  · rw [hsel]
    by_cases h : modeMatches current r m = true
    · have hp := (modeMatches_iff current m r).mp h
      rw [if_pos h]
      exact ⟨fun _ => ⟨hp.2.2, hp.1, hp.2.1⟩, fun _ => rfl⟩
    · rw [if_neg h]
      refine ⟨fun hfalse => absurd hfalse (by simp), fun hc => absurd ?_ h⟩
      exact (modeMatches_iff current m r).mpr ⟨hc.2.1, hc.2.2, hc.1⟩
  · intro habs
    rw [hsel]
    have hne : modeMatches current r m ≠ true := fun h => by
      rcases (modeMatches_iff current m r).mp h with ⟨_, _, hlt⟩
      exact absurd (habs ▸ hlt) (lt_irrefl (1:ℚ))
    simp [hne]

/-- C3 witness: the 61 Hz mode is exactly 1.0 Hz from the requested 62 Hz and
is rejected. -/
theorem selectTarget_eligibility_witness : selectTarget [m61ex] m60ex 62 = none :=
  (selectTarget_eligibility m60ex m61ex 62).2 (by norm_num [m61ex])

/-- C2 counterexample: requested 62 Hz; the 61 Hz mode at the current
resolution sits exactly on the 1.0 Hz boundary, which the claim says is
included as a match, yet the selection returns no mode at all. -/
theorem selectTarget_boundary_cex :
    m61ex.width = m60ex.width ∧ m61ex.height = m60ex.height ∧
      |m61ex.refresh - (62:ℚ)| ≤ 1 ∧ selectTarget [m60ex, m61ex] m60ex 62 = none :=
  ⟨rfl, rfl, by norm_num [m61ex], rfl⟩

/-- C2 (amended): every mode returned by target selection has the current
mode's (width, height) and a refresh rate strictly within 1.0 Hz of the
requested rate — the boundary of exactly 1.0 Hz is excluded, not included. -/
theorem selectTarget_sound (modes : List MonitorMode) (current m : MonitorMode) (r : ℚ)
    (h : selectTarget modes current r = some m) :
    m.width = current.width ∧ m.height = current.height ∧ |m.refresh - r| < 1 :=
  (modeMatches_iff current m r).mp (List.find?_some h)

/-- C2 witness: selecting 240 Hz from the two-mode DP-1 catalog. -/
theorem selectTarget_sound_witness :
    m240ex.width = m60ex.width ∧ m240ex.height = m60ex.height ∧
      |m240ex.refresh - (240:ℚ)| < 1 :=
  selectTarget_sound [m60ex, m240ex] m60ex m240ex 240 rfl

/-- C8: target selection is deterministic — identical mode list, current mode
and requested rate give identical results — and when several modes are
eligible the first eligible mode in the service-provided order is returned. -/
theorem selectTarget_deterministic_first_match
    (modes modes' : List MonitorMode) (current current' : MonitorMode) (r r' : ℚ)
    (l₁ l₂ : List MonitorMode) (m : MonitorMode)
    (heq : modes = modes') (hceq : current = current') (hreq : r = r')
    (hsplit : modes = l₁ ++ m :: l₂)
    (hm : modeMatches current r m = true)
    (hbefore : ∀ m' ∈ l₁, modeMatches current r m' = false) :
    selectTarget modes current r = selectTarget modes' current' r' ∧
      selectTarget modes current r = some m := by
  subst heq hceq hreq hsplit
  exact ⟨rfl, find?_append_first _ l₁ l₂ m hm hbefore⟩

/-- C8 witness: two interchangeable 240 Hz modes; the first one is chosen. -/
theorem selectTarget_deterministic_first_match_witness :
    selectTarget [m240ex, m240bex] m60ex 240 = some m240ex :=
  (selectTarget_deterministic_first_match [m240ex, m240bex] [m240ex, m240bex]
    m60ex m60ex 240 240 [] [m240bex] m240ex rfl rfl rfl rfl rfl
    (by intro m' hm'; simp at hm')).2

/-! ## Claims about mode parsing (C6) -/

theorem parseMode_ok_iff (c : String) (v : PyVal) :
    (∃ m, parseMode c v = .ok m) ↔ modeWF v = true := by
  constructor
  · rintro ⟨m, hm⟩
    unfold parseMode at hm
    split at hm
    · rfl
    · exact absurd hm (by simp)
  · intro h
    unfold modeWF at h
    split at h
    · exact ⟨_, rfl⟩
    · exact absurd h (by simp)

theorem parseMonitorModes_ok_iff (c : String) (vs : List PyVal) :
    (∃ ms, parseMonitorModes c vs = .ok ms) ↔ vs.all modeWF = true := by
  induction vs with
  | nil => simp [parseMonitorModes]
  | cons v vs ih =>
    simp only [List.all_cons, Bool.and_eq_true]
    constructor
    · rintro ⟨ms, hms⟩
      unfold parseMonitorModes at hms
      cases hv : parseMode c v with
      | error e => rw [hv] at hms; exact absurd hms (by simp)
      | ok m =>
        rw [hv] at hms
        cases hrest : parseMonitorModes c vs with
        | error e => rw [hrest] at hms; exact absurd hms (by simp)
        | ok ms' => exact ⟨(parseMode_ok_iff c v).mp ⟨m, hv⟩, ih.mp ⟨ms', hrest⟩⟩
    · rintro ⟨h1, h2⟩
      obtain ⟨m, hm⟩ := (parseMode_ok_iff c v).mpr h1
      obtain ⟨ms, hms⟩ := ih.mpr h2
      exact ⟨m :: ms, by unfold parseMonitorModes; rw [hm, hms]⟩

theorem parseMonitor_ok_iff (mo : PyVal) :
    (∃ ms, parseMonitor mo = .ok ms) ↔ monitorWF mo = true := by
  constructor
  · rintro ⟨ms, hms⟩
    unfold parseMonitor at hms
    split at hms
    · have := (parseMonitorModes_ok_iff _ _).mp ⟨ms, hms⟩
      simpa [monitorWF] using this
    · exact absurd hms (by simp)
  · intro h
    unfold monitorWF at h
    split at h
    · obtain ⟨ms, hms⟩ := (parseMonitorModes_ok_iff _ _).mpr h
      exact ⟨ms, by unfold parseMonitor; exact hms⟩
    · exact absurd h (by simp)

theorem parse_modes_ok_iff (monitors : List PyVal) :
    (∃ modes, parse_modes monitors = .ok modes) ↔ monitors.all monitorWF = true := by
  induction monitors with
  | nil => simp [parse_modes]
  | cons mo mos ih =>
    simp only [List.all_cons, Bool.and_eq_true]
    constructor
    · rintro ⟨modes, hm⟩
      unfold parse_modes at hm
      cases hmo : parseMonitor mo with
      | error e => rw [hmo] at hm; exact absurd hm (by simp)
      | ok ms =>
        rw [hmo] at hm
        cases hrest : parse_modes mos with
        | error e => rw [hrest] at hm; exact absurd hm (by simp)
        | ok rest => exact ⟨(parseMonitor_ok_iff mo).mp ⟨ms, hmo⟩, ih.mp ⟨rest, hrest⟩⟩
    · rintro ⟨h1, h2⟩
      obtain ⟨ms, hms⟩ := (parseMonitor_ok_iff mo).mpr h1
      obtain ⟨rest, hrest⟩ := ih.mpr h2
      exact ⟨ms ++ rest, by unfold parse_modes; rw [hms, hrest]⟩

/-- C6 counterexample: a well-formed DP-1 entry followed by a malformed one.
The claim says a malformed entry is simply omitted from the returned
sequence; instead the whole parse fails with the unpacking error. -/
theorem parse_modes_malformed_cex :
    parse_modes [rawMonitorDP1 [rawMode "m60" 60 true], PyVal.i 0] =
      .error "ValueError: cannot unpack monitor tuple" := rfl

/-- C6 (amended): `parse_modes` is a pure function that never fails on
well-formed monitor entries, but a malformed entry causes the whole call to
fail (the tuple unpacking raises) rather than being omitted from the
result. -/
theorem parse_modes_wf_ok_malformed_error (monitors : List PyVal) :
    (monitors.all monitorWF = true → ∃ modes, parse_modes monitors = .ok modes) ∧
    (∀ mo ∈ monitors, monitorWF mo = false → ∃ e, parse_modes monitors = .error e) := by
  constructor
  · exact fun h => (parse_modes_ok_iff monitors).mpr h
  · intro mo hmo hbad
    cases h : parse_modes monitors with
    | error e => exact ⟨e, rfl⟩
    | ok modes =>
      have hall := (parse_modes_ok_iff monitors).mp ⟨modes, h⟩
      rw [List.all_eq_true] at hall
      exact absurd (hall mo hmo) (by simp [hbad])

/-- C6 witness: the two-mode DP-1 state parses; a malformed entry fails. -/
theorem parse_modes_wf_ok_malformed_error_witness :
    (∃ modes, parse_modes rawMonitors1 = .ok modes) ∧
    (∃ e, parse_modes [PyVal.i 0] = .error e) :=
  ⟨(parse_modes_wf_ok_malformed_error rawMonitors1).1 rfl,
   (parse_modes_wf_ok_malformed_error [PyVal.i 0]).2 (PyVal.i 0) (by simp) rfl⟩

/-! ## Helper lemmas about the configuration rebuild -/

theorem newModeStr_target (target : MonitorMode) (modes : List MonitorMode)
    (s : Option String) (mc : MonitorConfigIn) (h : mc.connector = target.connector) :
    newModeStr target modes s mc = some target.mode_id := by
  unfold newModeStr
  rw [if_pos (beq_iff_eq.mpr h)]

theorem newModeStr_other_found (target : MonitorMode) (modes : List MonitorMode)
    (s : Option String) (mc : MonitorConfigIn) (m : MonitorMode)
    (h : mc.connector ≠ target.connector)
    (hm : lookupCurrentMode modes mc.connector = some m) :
    newModeStr target modes s mc = some m.mode_id := by
  unfold newModeStr
  rw [if_neg (by simp only [beq_iff_eq]; exact h), hm]

theorem newModeStr_other_missing (target : MonitorMode) (modes : List MonitorMode)
    (s : Option String) (mc : MonitorConfigIn)
    (h : mc.connector ≠ target.connector)
    (hm : lookupCurrentMode modes mc.connector = none) :
    newModeStr target modes s mc = s := by
  unfold newModeStr
  rw [if_neg (by simp only [beq_iff_eq]; exact h), hm]

theorem buildEntry_ok_shape (target : MonitorMode) (modes : List MonitorMode)
    (s : Option String) (mc : MonitorConfigIn) (entry : MonitorConfigOut)
    (s2 : Option String) (h : buildEntry target modes s mc = .ok (entry, s2)) :
    entry.props = [] ∧ entry.connector = mc.connector ∧ s2 = some entry.mode_id := by
  unfold buildEntry at h
  split at h
  · cases h
    exact ⟨rfl, rfl, rfl⟩
  · exact absurd h (by simp)

theorem buildConfigsAux_props_empty (target : MonitorMode) (modes : List MonitorMode) :
    ∀ (mcs : List MonitorConfigIn) (s : Option String) (outs : List MonitorConfigOut)
      (s' : Option String), buildConfigsAux target modes s mcs = .ok (outs, s') →
      ∀ o ∈ outs, o.props = [] := by
  intro mcs
  induction mcs with
  | nil =>
    intro s outs s' h o ho
    unfold buildConfigsAux at h
    cases h
    exact absurd ho (by simp)
  | cons mc rest ih =>
    intro s outs s' h o ho
    unfold buildConfigsAux at h
    split at h
    · exact absurd h (by simp)
    · rename_i entry s2 hb
      split at h
      · exact absurd h (by simp)
      · rename_i entries s3 hr
        cases h
        rcases List.mem_cons.mp ho with rfl | ho'
        · exact (buildEntry_ok_shape target modes s mc o s2 hb).1
        · exact ih s2 entries _ hr o ho'

theorem buildLMsAux_props_empty (target : MonitorMode) (modes : List MonitorMode) :
    ∀ (lms : List LogicalMonitor) (s : Option String) (outs : List NewLogicalMonitor)
      (s' : Option String), buildLogicalMonitorsAux target modes s lms = .ok (outs, s') →
      ∀ n ∈ outs, ∀ o ∈ n.monitor_configs, o.props = [] := by
  intro lms
  induction lms with
  | nil =>
    intro s outs s' h n hn
    unfold buildLogicalMonitorsAux at h
    cases h
    exact absurd hn (by simp)
  | cons lm rest ih =>
    intro s outs s' h n hn
    unfold buildLogicalMonitorsAux at h
    split at h
    · exact absurd h (by simp)
    · rename_i cfgs s2 hb
      split at h
      · exact absurd h (by simp)
      · rename_i outs2 s3 hr
        cases h
        rcases List.mem_cons.mp hn with rfl | hn'
        · exact buildConfigsAux_props_empty target modes lm.monitor_configs s cfgs s2 hb
        · exact ih s2 outs2 _ hr n hn'

theorem buildLMsAux_fields (target : MonitorMode) (modes : List MonitorMode) :
    ∀ (lms : List LogicalMonitor) (s : Option String) (outs : List NewLogicalMonitor)
      (s' : Option String), buildLogicalMonitorsAux target modes s lms = .ok (outs, s') →
      List.Forall₂ (fun lm (n : NewLogicalMonitor) => n.x = lm.x ∧ n.y = lm.y ∧
        n.scale = lm.scale ∧ n.transform = lm.transform ∧
        n.is_primary = lm.is_primary) lms outs := by
  intro lms
  induction lms with
  | nil =>
    intro s outs s' h
    unfold buildLogicalMonitorsAux at h
    cases h
    exact List.Forall₂.nil
  | cons lm rest ih =>
    intro s outs s' h
    unfold buildLogicalMonitorsAux at h
    split at h
    · exact absurd h (by simp)
    · rename_i cfgs s2 hb
      split at h
      · exact absurd h (by simp)
      · rename_i outs2 s3 hr
        cases h
        exact List.Forall₂.cons ⟨rfl, rfl, rfl, rfl, rfl⟩ (ih s2 outs2 _ hr)

theorem buildLMsAux_congr (target : MonitorMode) (modes : List MonitorMode) :
    ∀ (lms lms' : List LogicalMonitor) (s : Option String),
      lms.map stripLmProps = lms'.map stripLmProps →
      buildLogicalMonitorsAux target modes s lms =
        buildLogicalMonitorsAux target modes s lms' := by
  intro lms
  induction lms with
  | nil =>
    intro lms' s h
    cases lms' with
    | nil => rfl
    | cons l ls => exact absurd h (by simp)
  | cons lm rest ih =>
    intro lms' s h
    cases lms' with
    | nil => exact absurd h (by simp)
    | cons lm' rest' =>
      simp only [List.map_cons, List.cons.injEq] at h
      obtain ⟨hhead, htail⟩ := h
      simp only [stripLmProps, Prod.mk.injEq] at hhead
      obtain ⟨hx, hy, hscale, htr, hprim, hmcs⟩ := hhead
      have h' : ∀ t, buildLogicalMonitorsAux target modes t rest =
          buildLogicalMonitorsAux target modes t rest' := fun t => ih rest' t htail
      unfold buildLogicalMonitorsAux
      simp only [hx, hy, hscale, htr, hprim, hmcs, h']

theorem lookupCurrentMode_isSome (modes : List MonitorMode) (c : String)
    (h : ∃ m ∈ modes, m.connector = c ∧ m.is_current = true) :
    ∃ m, lookupCurrentMode modes c = some m ∧ m ∈ modes ∧
      m.connector = c ∧ m.is_current = true := by
  obtain ⟨m, hm, hc, hcur⟩ := h
  have hsome : (modes.find? (fun m => m.connector == c && m.is_current)).isSome := by
    rw [List.find?_isSome]
    exact ⟨m, hm, by simp [hc, hcur]⟩
  obtain ⟨m₀, hm₀⟩ := Option.isSome_iff_exists.mp hsome
  have hp := List.find?_some hm₀
  simp only [Bool.and_eq_true, beq_iff_eq] at hp
  exact ⟨m₀, hm₀, List.mem_of_find?_eq_some hm₀, hp.1, hp.2⟩

theorem buildConfigsAux_complete (target : MonitorMode) (modes : List MonitorMode) :
    ∀ (mcs : List MonitorConfigIn),
      (∀ mc ∈ mcs, mc.connector ≠ target.connector →
        ∃ m ∈ modes, m.connector = mc.connector ∧ m.is_current = true) →
      ∀ s : Option String, ∃ outs s',
        buildConfigsAux target modes s mcs = .ok (outs, s') ∧
        outs.map MonitorConfigOut.connector = mcs.map MonitorConfigIn.connector ∧
        ∀ o ∈ outs,
          (o.connector = target.connector → o.mode_id = target.mode_id) ∧
          (o.connector ≠ target.connector →
            ∃ m ∈ modes, m.connector = o.connector ∧ m.is_current = true ∧
              o.mode_id = m.mode_id) := by
  intro mcs
  induction mcs with
  | nil => exact fun _ s => ⟨[], s, rfl, rfl, by simp⟩
  | cons mc rest ih =>
    intro h s
    by_cases hc : mc.connector = target.connector
    · obtain ⟨outs, s', hb, hmap, hprop⟩ :=
        ih (fun x hx hxne => h x (List.mem_cons_of_mem _ hx) hxne) (some target.mode_id)
      have he : buildEntry target modes s mc =
          .ok (⟨mc.connector, target.mode_id, []⟩, some target.mode_id) := by
        unfold buildEntry
        rw [newModeStr_target target modes s mc hc]
      refine ⟨⟨mc.connector, target.mode_id, []⟩ :: outs, s', ?_, ?_, ?_⟩
      · simp only [buildConfigsAux, he, hb]
      · simp [hmap]
      · intro o ho
        rcases List.mem_cons.mp ho with rfl | ho'
        · exact ⟨fun _ => rfl, fun hne => absurd hc hne⟩
        · exact hprop o ho'
    · obtain ⟨m₀, hl₀, hm₀mem, hm₀c, hm₀cur⟩ :=
        lookupCurrentMode_isSome modes mc.connector (h mc (List.mem_cons_self _ _) hc)
      obtain ⟨outs, s', hb, hmap, hprop⟩ :=
        ih (fun x hx hxne => h x (List.mem_cons_of_mem _ hx) hxne) (some m₀.mode_id)
      have he : buildEntry target modes s mc =
          .ok (⟨mc.connector, m₀.mode_id, []⟩, some m₀.mode_id) := by
        unfold buildEntry
        rw [newModeStr_other_found target modes s mc m₀ hc hl₀]
      refine ⟨⟨mc.connector, m₀.mode_id, []⟩ :: outs, s', ?_, ?_, ?_⟩
      · simp only [buildConfigsAux, he, hb]
      · simp [hmap]
      · intro o ho
        rcases List.mem_cons.mp ho with rfl | ho'
        · exact ⟨fun hoc => absurd hoc hc, fun _ => ⟨m₀, hm₀mem, hm₀c, hm₀cur, rfl⟩⟩
        · exact hprop o ho'

theorem buildLMsAux_complete (target : MonitorMode) (modes : List MonitorMode) :
    ∀ (lms : List LogicalMonitor),
      (∀ lm ∈ lms, ∀ mc ∈ lm.monitor_configs, mc.connector ≠ target.connector →
        ∃ m ∈ modes, m.connector = mc.connector ∧ m.is_current = true) →
      ∀ s : Option String, ∃ outs s',
        buildLogicalMonitorsAux target modes s lms = .ok (outs, s') ∧
        List.Forall₂ (fun lm (n : NewLogicalMonitor) =>
          n.monitor_configs.map MonitorConfigOut.connector =
            lm.monitor_configs.map MonitorConfigIn.connector ∧
          ∀ o ∈ n.monitor_configs,
            (o.connector = target.connector → o.mode_id = target.mode_id) ∧
            (o.connector ≠ target.connector →
              ∃ m ∈ modes, m.connector = o.connector ∧ m.is_current = true ∧
                o.mode_id = m.mode_id)) lms outs := by
  intro lms
  induction lms with
  | nil => exact fun _ s => ⟨[], s, rfl, List.Forall₂.nil⟩
  | cons lm rest ih =>
    intro h s
    obtain ⟨cfgs, s2, hb, hmap, hprop⟩ :=
      buildConfigsAux_complete target modes lm.monitor_configs
        (h lm (List.mem_cons_self _ _)) s
    obtain ⟨outs, s', hr, hall⟩ := ih (fun l hl => h l (List.mem_cons_of_mem _ hl)) s2
    refine ⟨⟨lm.x, lm.y, lm.scale, lm.transform, lm.is_primary, cfgs⟩ :: outs, s', ?_, ?_⟩
    · simp only [buildLogicalMonitorsAux, hb, hr]
    · exact List.Forall₂.cons ⟨hmap, hprop⟩ hall

/-! ## Claims about the configuration rebuild (C1, C7, C9, C10) -/

/-- C1: under the fetch invariants — every connector referenced by a logical
monitor and distinct from the target's has a mode flagged current in the
freshly parsed list, and per connector the current mode id is unique — the
rebuild succeeds, keeps an entry for every referenced connector in order
(no connector is omitted), gives the target's connector the target's
`mode_id`, and gives every other connector the `mode_id` of that connector's
current mode looked up fresh in the parsed list. -/
theorem buildNewConfiguration_complete (target : MonitorMode) (modes : List MonitorMode)
    (lms : List LogicalMonitor)
    (hcur : ∀ lm ∈ lms, ∀ mc ∈ lm.monitor_configs, mc.connector ≠ target.connector →
      ∃ m ∈ modes, m.connector = mc.connector ∧ m.is_current = true)
    (huniq : ∀ m ∈ modes, ∀ m' ∈ modes, m.connector = m'.connector →
      m.is_current = true → m'.is_current = true → m.mode_id = m'.mode_id) :
    ∃ out, buildNewConfiguration target modes lms = .ok out ∧
      List.Forall₂ (fun lm (n : NewLogicalMonitor) =>
        n.monitor_configs.map MonitorConfigOut.connector =
          lm.monitor_configs.map MonitorConfigIn.connector ∧
        ∀ o ∈ n.monitor_configs,
          (o.connector = target.connector → o.mode_id = target.mode_id) ∧
          (o.connector ≠ target.connector → ∀ m ∈ modes, m.connector = o.connector →
            m.is_current = true → o.mode_id = m.mode_id)) lms out := by
  obtain ⟨outs, s', hb, hall⟩ := buildLMsAux_complete target modes lms hcur none
  refine ⟨outs, ?_, ?_⟩
  · simp only [buildNewConfiguration, hb]
  · refine hall.imp ?_
    intro lm n hn
    refine ⟨hn.1, fun o ho => ⟨(hn.2 o ho).1, fun hne m hm hmc hmcur => ?_⟩⟩
    obtain ⟨m₀, hm₀mem, hm₀c, hm₀cur, hid⟩ := (hn.2 o ho).2 hne
    rw [hid]
    exact huniq m₀ hm₀mem m hm (hm₀c.trans hmc.symm) hm₀cur hmcur

/-- C1 witness: retargeting DP-1 to 240 Hz in a two-connector arrangement;
HDMI-1 keeps its current mode id. -/
theorem buildNewConfiguration_complete_witness :
    ∃ out, buildNewConfiguration m240ex [m60ex, m240ex, mHdmiEx] [lmEx, lm2Ex] = .ok out ∧
      List.Forall₂ (fun lm (n : NewLogicalMonitor) =>
        n.monitor_configs.map MonitorConfigOut.connector =
          lm.monitor_configs.map MonitorConfigIn.connector ∧
        ∀ o ∈ n.monitor_configs,
          (o.connector = m240ex.connector → o.mode_id = m240ex.mode_id) ∧
          (o.connector ≠ m240ex.connector → ∀ m ∈ [m60ex, m240ex, mHdmiEx],
            m.connector = o.connector → m.is_current = true →
              o.mode_id = m.mode_id)) [lmEx, lm2Ex] out :=
  buildNewConfiguration_complete m240ex [m60ex, m240ex, mHdmiEx] [lmEx, lm2Ex]
    (by decide) (by decide)

/-- C7: every per-connector entry of a successfully rebuilt configuration
carries an empty properties map: per-connector custom properties from the
fetched state are dropped and never round-tripped into the apply call. -/
theorem buildNewConfiguration_props_empty (target : MonitorMode) (modes : List MonitorMode)
    (lms : List LogicalMonitor) (out : List NewLogicalMonitor)
    (h : buildNewConfiguration target modes lms = .ok out) :
    ∀ n ∈ out, ∀ o ∈ n.monitor_configs, o.props = [] := by
  unfold buildNewConfiguration at h
  split at h
  · exact absurd h (by simp)
  · rename_i outs s' hb
    cases h
    exact buildLMsAux_props_empty target modes lms none _ s' hb

/-- C7 witness: the rebuilt DP-1 entry has an empty properties map. -/
theorem buildNewConfiguration_props_empty_witness :
    MonitorConfigOut.props ⟨"DP-1", "m240", []⟩ = [] :=
  buildNewConfiguration_props_empty m240ex [m60ex, m240ex] [lmEx] cfgEx rfl
    ⟨0, 0, 1, 0, true, [⟨"DP-1", "m240", []⟩]⟩ (by simp [cfgEx])
    ⟨"DP-1", "m240", []⟩ (by simp)

/-- C10: every rebuilt logical monitor carries over x, y, scale, transform
and is_primary unchanged from the fetched seven-component tuple, while the
fetched logical monitor's own properties map has no counterpart in the
six-component submitted tuples: the rebuild never reads `lm_props`, so two
fetched lists agreeing on everything but `lm_props` rebuild identically. -/
theorem buildNewConfiguration_fields_no_lm_props (target : MonitorMode)
    (modes : List MonitorMode) (lms lms' : List LogicalMonitor)
    (out : List NewLogicalMonitor)
    (h : buildNewConfiguration target modes lms = .ok out)
    (hstrip : lms.map stripLmProps = lms'.map stripLmProps) :
    List.Forall₂ (fun lm (n : NewLogicalMonitor) => n.x = lm.x ∧ n.y = lm.y ∧
      n.scale = lm.scale ∧ n.transform = lm.transform ∧
      n.is_primary = lm.is_primary) lms out ∧
    buildNewConfiguration target modes lms' = .ok out := by
  constructor
  · unfold buildNewConfiguration at h
    split at h
    · exact absurd h (by simp)
    · rename_i outs s' hb
      cases h
      exact buildLMsAux_fields target modes lms none _ s' hb
  · unfold buildNewConfiguration at h ⊢
    rw [← buildLMsAux_congr target modes lms lms' none hstrip]
    exact h

/-- C10 witness: `lmEx` and `lmPropsEx` differ only in `lm_props` and
rebuild to the same six-field configuration with positions preserved. -/
theorem buildNewConfiguration_fields_no_lm_props_witness :
    List.Forall₂ (fun lm (n : NewLogicalMonitor) => n.x = lm.x ∧ n.y = lm.y ∧
      n.scale = lm.scale ∧ n.transform = lm.transform ∧
      n.is_primary = lm.is_primary) [lmEx] cfgEx ∧
    buildNewConfiguration m240ex [m60ex, m240ex] [lmPropsEx] = .ok cfgEx :=
  buildNewConfiguration_fields_no_lm_props m240ex [m60ex, m240ex]
    [lmEx] [lmPropsEx] cfgEx rfl rfl

/-- C9: for a rebuilt entry whose connector is not the target's and has no
parsed mode flagged current, no fresh mode id is assigned: with `mode_str`
already bound the entry silently reuses the previously assigned id, and when
the connector is the first processed in the whole rebuild (`mode_str` still
unbound) the rebuild fails with the unbound-local `NameError`. -/
theorem build_missing_current_reuses_or_fails
    (target : MonitorMode) (modes : List MonitorMode) (mc : MonitorConfigIn)
    (hne : mc.connector ≠ target.connector)
    (hmiss : lookupCurrentMode modes mc.connector = none) :
    (∀ id : String, buildEntry target modes (some id) mc =
      .ok (⟨mc.connector, id, []⟩, some id)) ∧
    buildEntry target modes none mc = .error "NameError: name mode_str is not defined" ∧
    (∀ (lm : LogicalMonitor) (lms : List LogicalMonitor) (mcs : List MonitorConfigIn),
      lm.monitor_configs = mc :: mcs →
      buildNewConfiguration target modes (lm :: lms) =
        .error "NameError: name mode_str is not defined") := by
  have hsame : ∀ s, newModeStr target modes s mc = s :=
    fun s => newModeStr_other_missing target modes s mc hne hmiss
  have hentry : buildEntry target modes none mc =
      .error "NameError: name mode_str is not defined" := by
    unfold buildEntry
    rw [hsame none]
  refine ⟨fun id => ?_, hentry, ?_⟩
  · unfold buildEntry
    rw [hsame (some id)]
  · intro lm lms mcs hlm
    simp only [buildNewConfiguration, buildLogicalMonitorsAux, hlm,
      buildConfigsAux, hentry]

/-- C9 witness: HDMI-1 has no current mode in a DP-1-only parsed list — as
the first processed connector the rebuild fails with the `NameError`, while
with `mode_str` already holding "m60" the entry silently reuses "m60". -/
theorem build_missing_current_reuses_or_fails_witness :
    buildEntry m240ex [m60ex, m240ex] (some "m60") ⟨"HDMI-1", "VEN2", "PROD2", "SER2"⟩ =
      .ok (⟨"HDMI-1", "m60", []⟩, some "m60") ∧
    buildNewConfiguration m240ex [m60ex, m240ex] [lmHdmiEx] =
      .error "NameError: name mode_str is not defined" :=
  ⟨(build_missing_current_reuses_or_fails m240ex [m60ex, m240ex]
      ⟨"HDMI-1", "VEN2", "PROD2", "SER2"⟩ (by decide) rfl).1 "m60",
   (build_missing_current_reuses_or_fails m240ex [m60ex, m240ex]
      ⟨"HDMI-1", "VEN2", "PROD2", "SER2"⟩ (by decide) rfl).2.2 lmHdmiEx [] [] rfl⟩

/-! ## Claims about the end-to-end set operation (C4, C5) -/

/-- C4 counterexample: the current mode is 60 Hz and 60 Hz is requested —
well within 1.0 Hz — yet a 59.9 Hz same-resolution mode listed earlier is
selected instead of the current mode, and the run performs an apply call
(`applyCalls = 1`, message `setDone`) instead of the "already at rate"
no-op. -/
theorem set_noop_claim_cex :
    selectCurrent [m599ex, m60ex] = some m60ex ∧
    |m60ex.refresh - (60:ℚ)| < 1 ∧
    selectTarget [m599ex, m60ex] m60ex 60 = some m599ex ∧
    m599ex.is_current = false ∧
    set_refresh_rate none rawMonitors2 [lmEx] 60 =
      .ok ⟨[.setDone q599d10], true, 1⟩ :=
  ⟨rfl, by norm_num [m60ex], rfl, rfl, rfl⟩

/-- C4 (amended): if the current mode's refresh is within 1.0 Hz of the
requested rate and no mode earlier in the parsed list is eligible (in
particular, no same-resolution near-duplicate precedes it), then target
selection returns the current mode itself, the run performs no apply call,
reports "already at rate", and the process exits with code 0. -/
theorem set_noop_when_current_first_eligible (monitors : List PyVal)
    (lms : List LogicalMonitor) (r : ℚ) (l₁ l₂ : List MonitorMode)
    (current : MonitorMode)
    (hparse : parse_modes monitors = .ok (l₁ ++ current :: l₂))
    (hcurflag : current.is_current = true)
    (hnoprior : ∀ m ∈ l₁, m.is_current = false)
    (hnoeligible : ∀ m ∈ l₁, modeMatches current r m = false)
    (hwithin : |current.refresh - r| < 1) :
    selectTarget (l₁ ++ current :: l₂) current r = some current ∧
    ∀ fault, set_refresh_rate fault monitors lms r = .ok ⟨[.alreadyAt r], true, 0⟩ ∧
      runSet fault monitors lms r = 0 := by
  have hcur : selectCurrent (l₁ ++ current :: l₂) = some current := by
    unfold selectCurrent
    exact find?_append_first _ l₁ l₂ current hcurflag hnoprior
  have hmatch : modeMatches current r current = true :=
    (modeMatches_iff current current r).mpr ⟨rfl, rfl, hwithin⟩
  have htgt : selectTarget (l₁ ++ current :: l₂) current r = some current := by
    unfold selectTarget
    exact find?_append_first _ l₁ l₂ current hmatch hnoeligible
  refine ⟨htgt, fun fault => ?_⟩
  have hset : set_refresh_rate fault monitors lms r = .ok ⟨[.alreadyAt r], true, 0⟩ := by
    simp [set_refresh_rate, hparse, hcur, htgt, hcurflag]
  exact ⟨hset, by simp [runSet, hset]⟩

/-- C4 witness: requesting 60 Hz while DP-1 is current at 60 Hz, with the
current mode first in the list; no apply call even if the service would
fault. -/
theorem set_noop_when_current_first_eligible_witness :
    set_refresh_rate (some "stale serial") rawMonitors1 [lmEx] 60 =
      .ok ⟨[.alreadyAt 60], true, 0⟩ ∧
    runSet (some "stale serial") rawMonitors1 [lmEx] 60 = 0 :=
  (set_noop_when_current_first_eligible rawMonitors1 [lmEx] 60 [] [m240ex] m60ex
    rfl rfl (by simp) (by simp) (by norm_num [m60ex])).2 (some "stale serial")

/-- C5: when the run reaches the apply step and the service call returns a
fault, `set_refresh_rate` catches it, prints the error message, makes
exactly one apply call (no retry), returns normally (no uncaught exception),
and the process exits with code 1. -/
theorem set_apply_fault_caught (monitors : List PyVal) (lms : List LogicalMonitor)
    (r : ℚ) (modes : List MonitorMode) (current target : MonitorMode)
    (cfg : List NewLogicalMonitor) (e : String)
    (hparse : parse_modes monitors = .ok modes)
    (hcur : selectCurrent modes = some current)
    (htgt : selectTarget modes current r = some target)
    (hnotcur : target.is_current = false)
    (hbuild : buildNewConfiguration target modes lms = .ok cfg) :
    set_refresh_rate (some e) monitors lms r = .ok ⟨[.errApply e], false, 1⟩ ∧
    runSet (some e) monitors lms r = 1 := by
  have hset : set_refresh_rate (some e) monitors lms r = .ok ⟨[.errApply e], false, 1⟩ := by
    simp [set_refresh_rate, hparse, hcur, htgt, hnotcur, hbuild]
  exact ⟨hset, by simp [runSet, hset]⟩

/-- C5 witness: setting 240 Hz on the DP-1 state with a service fault
(simulated stale serial) on the apply call. -/
theorem set_apply_fault_caught_witness :
    set_refresh_rate (some "stale serial") rawMonitors1 [lmEx] 240 =
      .ok ⟨[.errApply "stale serial"], false, 1⟩ ∧
    runSet (some "stale serial") rawMonitors1 [lmEx] 240 = 1 :=
  set_apply_fault_caught rawMonitors1 [lmEx] 240 [m60ex, m240ex] m60ex m240ex cfgEx
    "stale serial" rfl rfl rfl rfl rfl

end ZephyrusOptimizations
